import Mathlib

/-!
Shallow embedding of `wealth_builder_tools.py`: a Plaid API gateway
(`Plaid_Interface`) and a recurring-bill analyzer (`Account_Analyzer`).
External library behaviour (Python `str` methods, `dateutil.relativedelta`
calendar arithmetic, pandas filtering/grouping) is translated into
executable Lean definitions; the external Plaid client is a function
parameter so that theorems can quantify over every possible API behaviour.
-/

/-! ## Python string primitives

Python `str.strip()` removes leading and trailing whitespace
(space, tab, newline, vertical tab, form feed, carriage return);
`str.lower()` lowercases letters.  Strings are modelled through their
character lists. -/

/-- Whitespace characters removed by Python `str.strip()` (ASCII subset). -/
def isPySpace (c : Char) : Bool :=
  c.toNat = 32 || c.toNat = 9 || c.toNat = 10 || c.toNat = 11 || c.toNat = 12 || c.toNat = 13

/-- Python `str.strip()` on a character list: drop whitespace from both ends. -/
def pyStrip (l : List Char) : List Char :=
  ((l.dropWhile isPySpace).reverse.dropWhile isPySpace).reverse

/-- Python `str.lower()` on a character list (ASCII letters, as in the data handled here). -/
def pyLower (l : List Char) : List Char :=
  l.map Char.toLower

/-- The merchant-name normalization used on both sides of the comparison in
`analyze_bill_activity`: `str(mn).strip().lower()`  (`str` is the identity on
the string-valued merchant fields modelled here). -/
def normalizeMerchant (s : String) : String :=
  ⟨pyLower (pyStrip s.data)⟩

/-! ## Data model -/

/-- Values stored in the plain dictionaries the Python code builds. -/
inductive PValue where
  | str (s : String)
  | int (n : Int)
deriving DecidableEq

/-- A transaction row as produced by the gateway and consumed by the
analyzer: date (ISO string), free-text name, merchant name, amount
(modelled as an exact integer amount), category identifier. -/
structure Transaction where
  date : String
  name : String
  merchant_name : String
  amount : Int
  category_id : String
deriving DecidableEq

/-- The `Bill` dataclass.  `name`, `regex`, `due_date` and `merchant_name`
are required fields; `frequency`, `period` and `amount` carry the dataclass
defaults `1`, `"monthly"` and `0`. -/
structure Bill where
  name : String
  regex : String
  due_date : String
  merchant_name : String
  frequency : Int
  period : String
  amount : Int
deriving DecidableEq

/-- `Bill.to_dict`: the fixed-key serialization of a bill. -/
def Bill.to_dict (b : Bill) : List (String × PValue) :=
  [("NAME", PValue.str b.name),
   ("REGEX", PValue.str b.regex),
   ("FREQUENCY", PValue.int b.frequency),
   ("MERCHANT_NAME", PValue.str b.merchant_name),
   ("PERIOD", PValue.str b.period),
   ("AMOUNT", PValue.int b.amount),
   ("DUE_DATE", PValue.str b.due_date)]

/-- Construct a `Bill` the way a Python caller that supplies only the four
required dataclass arguments does: `frequency`, `period` and `amount` take
the dataclass defaults. -/
def Bill.mkDefault (name regex due_date merchant_name : String) : Bill :=
  { name := name, regex := regex, due_date := due_date, merchant_name := merchant_name,
    frequency := 1, period := "monthly", amount := 0 }

/-! ## Plaid_Interface: error normalization -/

/-- A declared Plaid API exception (`plaid.ApiException`): HTTP status plus
the already-parsed JSON body fields read by `format_error`
(`json.loads(e.body)` then `error_message`, `error_code`, `error_type`). -/
structure ApiException where
  status : Int
  error_message : String
  error_code : String
  error_type : String
deriving DecidableEq

/-- The response of the external `accounts_get` call (only its shape matters
to the claims: on success it is returned unchanged). -/
structure AccountsGetResponse where
  accounts : List (String × String × Int)
deriving DecidableEq

/-- Result of `get_account_details`: either the raw API response or the
error dictionary built by `format_error` (a nested string-keyed mapping,
mirroring the Python dict-of-dict). -/
inductive AccountDetailsResult where
  | response (r : AccountsGetResponse)
  | error_dict (d : List (String × List (String × PValue)))
deriving DecidableEq

/-- `Plaid_Interface.format_error`: wraps the four fields taken from the
exception into a mapping under the single top-level key `error`. -/
def Plaid_Interface.format_error (e : ApiException) : List (String × List (String × PValue)) :=
  [("error",
    [("status_code", PValue.int e.status),
     ("display_message", PValue.str e.error_message),
     ("error_code", PValue.str e.error_code),
     ("error_type", PValue.str e.error_type)])]

/-- `Plaid_Interface.get_account_details`: the external `accounts_get` call
either returns a response or raises a declared `ApiException`; the raised
case is caught and normalized through `format_error`, the success case is
returned unchanged. -/
def Plaid_Interface.get_account_details
    (call : Except ApiException AccountsGetResponse) : AccountDetailsResult :=
  match call with
  | .ok r => .response r
  | .error e => .error_dict (Plaid_Interface.format_error e)

/-! ## Plaid_Interface: calendar arithmetic

`datetime.date` values are (year, month, day) triples; `dateutil`
`relativedelta(months=1)` arithmetic shifts the month and clamps the day to
the length of the target month, `relativedelta(days=1)` steps one calendar
day. -/

/-- A `datetime.date`. -/
structure PyDate where
  year : Int
  month : Int
  day : Int
deriving DecidableEq

/-- Gregorian leap-year rule. -/
def isLeapYear (y : Int) : Prop :=
  y % 4 = 0 ∧ (y % 100 ≠ 0 ∨ y % 400 = 0)

instance (y : Int) : Decidable (isLeapYear y) := by
  unfold isLeapYear
  infer_instance

/-- Number of days in a month. -/
def daysInMonth (y m : Int) : Int :=
  if m = 2 then (if isLeapYear y then 29 else 28)
  else if m = 4 ∨ m = 6 ∨ m = 9 ∨ m = 11 then 30
  else 31

/-- A well-formed calendar date. -/
def ValidDate (d : PyDate) : Prop :=
  1 ≤ d.month ∧ d.month ≤ 12 ∧ 1 ≤ d.day ∧ d.day ≤ daysInMonth d.year d.month

instance (d : PyDate) : Decidable (ValidDate d) := by
  unfold ValidDate
  infer_instance

/-- Strict calendar order on dates (Python `date <`): lexicographic on
(year, month, day). -/
def dateLt (a b : PyDate) : Prop :=
  a.year < b.year ∨ (a.year = b.year ∧ (a.month < b.month ∨ (a.month = b.month ∧ a.day < b.day)))

instance (a b : PyDate) : Decidable (dateLt a b) := by
  unfold dateLt
  infer_instance

/-- `date - relativedelta(days=1)`: one calendar day earlier. -/
def subDays1 (d : PyDate) : PyDate :=
  if 1 < d.day then ⟨d.year, d.month, d.day - 1⟩
  else if d.month = 1 then ⟨d.year - 1, 12, 31⟩
  else ⟨d.year, d.month - 1, daysInMonth d.year (d.month - 1)⟩

/-- `date - relativedelta(months=1)`: previous month, day clamped to the
length of that month. -/
def subMonths1 (d : PyDate) : PyDate :=
  if d.month = 1 then ⟨d.year - 1, 12, min d.day (daysInMonth (d.year - 1) 12)⟩
  else ⟨d.year, d.month - 1, min d.day (daysInMonth d.year (d.month - 1))⟩

/-- `date + relativedelta(months=1)`: next month, day clamped to the length
of that month. -/
def addMonths1 (d : PyDate) : PyDate :=
  if d.month = 12 then ⟨d.year + 1, 1, min d.day (daysInMonth (d.year + 1) 1)⟩
  else ⟨d.year, d.month + 1, min d.day (daysInMonth d.year (d.month + 1))⟩

/-- One iteration of the loop body of `get_date_range`: step one day back
when `option == 'd'`, otherwise one month back. -/
def stepBack (option : String) (d : PyDate) : PyDate :=
  if option = "d" then subDays1 d else subMonths1 d

/-- The loop of `get_date_range`: starting from `date`, repeatedly step back
and append the stepped date, `periods` times. -/
def get_date_range_loop (option : String) (date : PyDate) : Nat → List PyDate
  | 0 => []
  | Nat.succ n => stepBack option date :: get_date_range_loop option (stepBack option date) n

/-- `Plaid_Interface.get_date_range` (static): `periods` dates stepping back
from `today` by the unit selected by `option`; `today` stands for the
`datetime.today()` call read at entry. -/
def Plaid_Interface.get_date_range (today : PyDate) (option : String) (periods : Nat) :
    List PyDate :=
  get_date_range_loop option today periods

/-! ## Plaid_Interface: transaction fetching -/

/-- A `TransactionsGetRequest` together with the `count` field of its
`TransactionsGetRequestOptions`. -/
structure TransactionsRequest where
  start_date : PyDate
  end_date : Option PyDate
  count : Nat
deriving DecidableEq

/-- The (already `to_dict`-converted) response of a `transactions_get` call;
`record_path=['transactions']` only ever reads its `transactions` list. -/
structure TransactionsResponse where
  transactions : List Transaction
deriving DecidableEq

/-- `Plaid_Interface.get_transactions_from_plaid`.  The external Plaid
client is the function argument `client`.  The first component is the Python
return value (the body runs only under `if start is not None`, so the
function implicitly returns `None` otherwise); the second component records
the requests issued to the external client during the call. -/
def Plaid_Interface.get_transactions_from_plaid
    (client : TransactionsRequest → TransactionsResponse)
    (start : Option PyDate) (end_date : Option PyDate) :
    Option TransactionsResponse × List TransactionsRequest :=
  match start with
  | none => (none, [])
  | some s =>
      let request : TransactionsRequest := ⟨s, end_date, 500⟩
      (some (client request), [request])

/-- `pd.json_normalize(records, record_path=['transactions'])`: the
concatenation of the `transactions` lists of the collected responses. -/
def json_normalize_transactions (records : List (Option TransactionsResponse)) : List Transaction :=
  (records.map (fun r => (r.map TransactionsResponse.transactions).getD [])).flatten

/-- The boundary dates `get_account_history` retains for querying: the
output of `get_date_range` filtered to dates strictly before
`datetime.now().date()` (modelled by the same `today`). -/
def retained_dates (today : PyDate) (option : String) (periods : Nat) : List PyDate :=
  (Plaid_Interface.get_date_range today option periods).filter (fun d => decide (dateLt d today))

/-- `Plaid_Interface.get_account_history`: for each retained boundary date
`d`, query the window from `d` to `d + relativedelta(months=1)`, collecting
responses and issued requests in loop order, then flatten the transaction
batches. -/
def Plaid_Interface.get_account_history
    (client : TransactionsRequest → TransactionsResponse)
    (today : PyDate) (option : String) (periods : Nat) :
    List Transaction × List TransactionsRequest :=
  let date_query_list := retained_dates today option periods
  let history := date_query_list.foldl
    (fun acc d =>
      let call := Plaid_Interface.get_transactions_from_plaid client (some d) (some (addMonths1 d))
      (acc.1 ++ [call.1], acc.2 ++ call.2))
    (([], []) : List (Option TransactionsResponse) × List TransactionsRequest)
  (json_normalize_transactions history.1, history.2)

/-! ## Account_Analyzer -/

/-- The analyzer state: the registered bills and the transaction table it
was constructed with. -/
structure Account_Analyzer where
  bill_list : List Bill
  account_history : List Transaction
deriving DecidableEq

/-- The `Account_Analyzer` constructor: empty bill registry plus the given
transaction table. -/
def Account_Analyzer.init (account_history : List Transaction) : Account_Analyzer :=
  ⟨[], account_history⟩

/-- `Account_Analyzer.add_recurring_bill`: append to the bill registry. -/
def Account_Analyzer.add_recurring_bill (self : Account_Analyzer) (bill : Bill) : Account_Analyzer :=
  { self with bill_list := self.bill_list ++ [bill] }

/-- `Account_Analyzer.report_bills`: serialize every registered bill with
`Bill.to_dict`, in registry order. -/
def Account_Analyzer.report_bills (self : Account_Analyzer) : List (List (String × PValue)) :=
  self.bill_list.map Bill.to_dict

/-- The grouping key of `groupby(['date', 'name', 'amount'])`. -/
def txnKey (t : Transaction) : String × String × Int :=
  (t.date, t.name, t.amount)

/-- The merchant filter condition of `analyze_bill_activity`: normalized
transaction merchant name equals normalized bill merchant name. -/
def billMatches (bill : Bill) (t : Transaction) : Bool :=
  normalizeMerchant t.merchant_name == normalizeMerchant bill.merchant_name

/-- One row of the grouped table returned by `analyze_bill_activity`.  The
fourth column holds the per-group row count; pandas names it after the
counted source column (`category_id`), and the subsequent `rename` call does
not change that (see `analyze_bill_activity_columns`). -/
structure GroupedRow where
  date : String
  name : String
  amount : Int
  category_id : Nat
deriving DecidableEq

/-- `Account_Analyzer.analyze_bill_activity`: filter the transaction table
by the normalized merchant-name condition, then group the filtered rows by
(date, name, amount) and count the rows of each group (the `category_id`
field is present on every modelled row, so its non-null count is the group
size).  `pd.to_datetime` on the ISO date strings is modelled as the
identity; the grouped table holds one row per distinct key (group order is
not relied upon by any claim). -/
def Account_Analyzer.analyze_bill_activity (self : Account_Analyzer) (bill : Bill) :
    List GroupedRow :=
  let bill_activity := self.account_history.filter (fun t => billMatches bill t)
  ((bill_activity.map txnKey).dedup).map (fun k =>
    { date := k.1, name := k.2.1, amount := k.2.2,
      category_id := (bill_activity.filter (fun t => txnKey t = k)).length })

/-- `Account_Analyzer.find_bills_in_period`: run `analyze_bill_activity` for
every registered bill, appending the per-bill tables in registry order. -/
def Account_Analyzer.find_bills_in_period (self : Account_Analyzer) : List (List GroupedRow) :=
  self.bill_list.foldl (fun acc bill => acc ++ [self.analyze_bill_activity bill]) []

/-! ## Column labels of the grouped table

The row content of `analyze_bill_activity` is modelled above; the column
labels of the returned DataFrame follow pandas mechanics, embedded here so
the column-name contract can be checked. -/

/-- Column labels after `pd.DataFrame(groupby(keys)[counted].count()).reset_index()`:
the group keys followed by the counted column, which keeps its source name. -/
def groupby_count_reset_index_columns (keys : List String) (counted : String) : List String :=
  keys ++ [counted]

/-- Column labels after `DataFrame.rename(mapper, inplace=True)` with no
`axis`/`columns` argument: the mapper is applied to the row-index labels,
so the column labels are unchanged (here the mapper would in any case only
touch a label `count`, which no column carries). -/
def rename_default_axis_columns (cols : List String) (_mapper : List (String × String)) :
    List String :=
  cols

/-- The column labels of the table returned by `analyze_bill_activity`:
grouping keys, then the counted `category_id` column, then the
index-axis `rename({'count': 'category_id'})`. -/
def analyze_bill_activity_columns : List String :=
  rename_default_axis_columns
    (groupby_count_reset_index_columns ["date", "name", "amount"] "category_id")
    [("count", "category_id")]

/-! ## Lemmas: Python string normalization -/

theorem char_toNat_ofNat (n : Nat) (h : n.isValidChar) : (Char.ofNat n).toNat = n := by
  simp [Char.ofNat, h, Char.ofNatAux, Char.toNat, UInt32.toNat, BitVec.toNat_ofNatLt]

/-- Lowercasing a character does not change whether it is Python whitespace. -/
theorem isPySpace_toLower (c : Char) : isPySpace (Char.toLower c) = isPySpace c := by
  unfold Char.toLower
  by_cases h : c.toNat ≥ 65 ∧ c.toNat ≤ 90
  · have hv : (c.toNat + 32).isValidChar := by
      unfold Nat.isValidChar
      omega
    have h1 : (Char.ofNat (c.toNat + 32)).toNat = c.toNat + 32 := char_toNat_ofNat _ hv
    rw [if_pos h]
    simp only [isPySpace]
    rw [h1]
    rw [Bool.eq_iff_iff]
    simp only [Bool.or_eq_true, decide_eq_true_eq]
    omega
  · simp [h]

theorem dropWhile_append_of_forall {p : Char → Bool} {w l : List Char}
    (hw : ∀ c ∈ w, p c = true) :
    (w ++ l).dropWhile p = l.dropWhile p := by
  rw [List.dropWhile_append, List.dropWhile_eq_nil_iff.mpr hw]
  simp

theorem pyStrip_append_left {w s : List Char} (hw : ∀ c ∈ w, isPySpace c = true) :
    pyStrip (w ++ s) = pyStrip s := by
  unfold pyStrip
  rw [dropWhile_append_of_forall hw]

theorem pyStrip_append_right {s w : List Char} (hw : ∀ c ∈ w, isPySpace c = true) :
    pyStrip (s ++ w) = pyStrip s := by
  unfold pyStrip
  rw [List.dropWhile_append]
  by_cases h : (s.dropWhile isPySpace).isEmpty
  · rw [if_pos h]
    rw [List.isEmpty_iff] at h
    rw [h, List.dropWhile_eq_nil_iff.mpr hw]
  · rw [if_neg h]
    rw [List.reverse_append]
    rw [dropWhile_append_of_forall (fun c hc => hw c (List.mem_reverse.mp hc))]

theorem pyStrip_pad {w₁ w₂ s : List Char}
    (h₁ : ∀ c ∈ w₁, isPySpace c = true) (h₂ : ∀ c ∈ w₂, isPySpace c = true) :
    pyStrip (w₁ ++ s ++ w₂) = pyStrip s := by
  rw [List.append_assoc, pyStrip_append_left h₁, pyStrip_append_right h₂]

/-- Stripping commutes with lowercasing, because lowercasing preserves
whitespace-ness of each character. -/
theorem pyStrip_pyLower (l : List Char) : pyStrip (pyLower l) = pyLower (pyStrip l) := by
  have hfp : (isPySpace ∘ Char.toLower) = isPySpace := funext isPySpace_toLower
  unfold pyStrip pyLower
  rw [List.dropWhile_map, hfp, ← List.map_reverse, List.dropWhile_map, hfp, ← List.map_reverse]

/-- Surrounding whitespace on either side is erased by the normalization. -/
theorem normalizeMerchant_pad (w₁ w₂ s : String)
    (h₁ : ∀ c ∈ w₁.data, isPySpace c = true) (h₂ : ∀ c ∈ w₂.data, isPySpace c = true) :
    normalizeMerchant (w₁ ++ s ++ w₂) = normalizeMerchant s := by
  unfold normalizeMerchant
  have hd : (w₁ ++ s ++ w₂).data = w₁.data ++ s.data ++ w₂.data := by
    simp
  rw [hd, pyStrip_pad h₁ h₂]

/-- Two strings that lowercase to the same character list normalize
identically. -/
theorem normalizeMerchant_case (s s' : String) (h : pyLower s'.data = pyLower s.data) :
    normalizeMerchant s' = normalizeMerchant s := by
  unfold normalizeMerchant
  have h1 : pyLower (pyStrip s'.data) = pyLower (pyStrip s.data) := by
    rw [← pyStrip_pyLower, ← pyStrip_pyLower, h]
  rw [h1]

/-! ## Lemmas: calendar arithmetic -/

theorem daysInMonth_ge_28 (y m : Int) : 28 ≤ daysInMonth y m := by
  unfold daysInMonth
  split_ifs <;> omega

theorem daysInMonth_le_31 (y m : Int) : daysInMonth y m ≤ 31 := by
  unfold daysInMonth
  split_ifs <;> omega

theorem daysInMonth_twelve (y : Int) : daysInMonth y 12 = 31 := by
  norm_num [daysInMonth]

theorem subDays1_valid {d : PyDate} (h : ValidDate d) : ValidDate (subDays1 d) := by
  obtain ⟨h1, h2, h3, h4⟩ := h
  have h28 := daysInMonth_ge_28 d.year (d.month - 1)
  have h12 := daysInMonth_twelve (d.year - 1)
  unfold subDays1 ValidDate
  split_ifs <;> dsimp only <;> refine ⟨?_, ?_, ?_, ?_⟩ <;> omega

theorem subDays1_lt {d : PyDate} (h : ValidDate d) : dateLt (subDays1 d) d := by
  obtain ⟨h1, h2, h3, h4⟩ := h
  unfold subDays1 dateLt
  split_ifs <;> dsimp only <;> omega

theorem subMonths1_valid {d : PyDate} (h : ValidDate d) : ValidDate (subMonths1 d) := by
  obtain ⟨h1, h2, h3, h4⟩ := h
  have ha := daysInMonth_ge_28 (d.year - 1) 12
  have hb := daysInMonth_ge_28 d.year (d.month - 1)
  unfold subMonths1 ValidDate
  split_ifs <;> dsimp only <;> refine ⟨?_, ?_, ?_, ?_⟩ <;> omega

theorem subMonths1_lt {d : PyDate} (h : ValidDate d) : dateLt (subMonths1 d) d := by
  obtain ⟨h1, h2, h3, h4⟩ := h
  unfold subMonths1 dateLt
  split_ifs <;> dsimp only <;> omega

theorem stepBack_valid (option : String) {d : PyDate} (h : ValidDate d) :
    ValidDate (stepBack option d) := by
  unfold stepBack
  split_ifs
  · exact subDays1_valid h
  · exact subMonths1_valid h

theorem stepBack_lt (option : String) {d : PyDate} (h : ValidDate d) :
    dateLt (stepBack option d) d := by
  unfold stepBack
  split_ifs
  · exact subDays1_lt h
  · exact subMonths1_lt h

theorem dateLt_trans {a b c : PyDate} (h1 : dateLt a b) (h2 : dateLt b c) : dateLt a c := by
  unfold dateLt at *
  omega

/-- The loop of `get_date_range` lists the iterates of the step function,
starting at one step back. -/
theorem get_date_range_loop_iterate (option : String) (d : PyDate) (n : Nat) :
    get_date_range_loop option d n =
      (List.range n).map (fun k => (stepBack option)^[k + 1] d) := by
  induction n generalizing d with
  | zero => rfl
  | succ n ih =>
      rw [get_date_range_loop, ih, List.range_succ_eq_map]
      simp only [List.map_cons, List.map_map, zero_add, Function.iterate_one]
      have hfun : ((fun k => (stepBack option)^[k + 1] d) ∘ Nat.succ)
          = fun k => (stepBack option)^[k + 1] (stepBack option d) := by
        funext k
        show (stepBack option)^[k + 1 + 1] d = (stepBack option)^[k + 1] (stepBack option d)
        rw [Function.iterate_succ_apply]
      rw [hfun]

/-- Every date produced by the loop is valid and strictly earlier than the
starting date. -/
theorem get_date_range_loop_mem {option : String} {d : PyDate} {n : Nat}
    (hv : ValidDate d) {e : PyDate} (he : e ∈ get_date_range_loop option d n) :
    ValidDate e ∧ dateLt e d := by
  induction n generalizing d with
  | zero => cases he
  | succ n ih =>
      rw [get_date_range_loop] at he
      rcases List.mem_cons.mp he with rfl | htail
      · exact ⟨stepBack_valid option hv, stepBack_lt option hv⟩
      · have hstep := stepBack_valid option hv
        obtain ⟨hev, helt⟩ := ih hstep htail
        exact ⟨hev, dateLt_trans helt (stepBack_lt option hv)⟩

theorem get_date_range_loop_length (option : String) (d : PyDate) (n : Nat) :
    (get_date_range_loop option d n).length = n := by
  induction n generalizing d with
  | zero => rfl
  | succ n ih => rw [get_date_range_loop]; simp [ih]

/-! ## Lemmas: loop accumulators -/

theorem foldl_append_singleton {α β : Type} (g : β → α) (l : List β) (acc : List α) :
    l.foldl (fun a b => a ++ [g b]) acc = acc ++ l.map g := by
  induction l generalizing acc with
  | nil => simp
  | cons x xs ih => simp [ih]

theorem foldl_pair_collect {α β γ : Type} (f : γ → α) (g : γ → List β)
    (l : List γ) (a : List α) (b : List β) :
    l.foldl (fun acc d => (acc.1 ++ [f d], acc.2 ++ g d)) (a, b) =
      (a ++ l.map f, b ++ (l.map g).flatten) := by
  induction l generalizing a b with
  | nil => simp
  | cons x xs ih => simp [ih]

/-- The analyzer obtained from a sequence of `add_recurring_bill` calls on a
freshly constructed analyzer. -/
def register_bills (history : List Transaction) (bs : List Bill) : Account_Analyzer :=
  bs.foldl Account_Analyzer.add_recurring_bill (Account_Analyzer.init history)

theorem foldl_add_recurring_bill (bs : List Bill) (a : Account_Analyzer) :
    bs.foldl Account_Analyzer.add_recurring_bill a =
      ⟨a.bill_list ++ bs, a.account_history⟩ := by
  induction bs generalizing a with
  | nil => simp
  | cons b rest ih => simp [ih, Account_Analyzer.add_recurring_bill]

theorem register_bills_eq (history : List Transaction) (bs : List Bill) :
    register_bills history bs = ⟨bs, history⟩ := by
  rw [register_bills, foldl_add_recurring_bill]
  rfl

theorem find_bills_in_period_eq_map (a : Account_Analyzer) :
    a.find_bills_in_period = a.bill_list.map (fun b => a.analyze_bill_activity b) := by
  rw [Account_Analyzer.find_bills_in_period, foldl_append_singleton]
  rfl

/-! ## Lemmas: transaction fetch loop -/

theorem history_fold (client : TransactionsRequest → TransactionsResponse)
    (l : List PyDate) (a : List (Option TransactionsResponse)) (b : List TransactionsRequest) :
    l.foldl (fun acc d =>
      (acc.1 ++ [some (client ⟨d, some (addMonths1 d), 500⟩)],
       acc.2 ++ [(⟨d, some (addMonths1 d), 500⟩ : TransactionsRequest)])) (a, b) =
    (a ++ l.map (fun d => some (client ⟨d, some (addMonths1 d), 500⟩)),
     b ++ l.map (fun d => (⟨d, some (addMonths1 d), 500⟩ : TransactionsRequest))) := by
  induction l generalizing a b with
  | nil => simp
  | cons x xs ih => simp [ih]

/-! ## Claim theorems -/

/-- C1: for every bill and transaction table, `analyze_bill_activity`
returns one row per distinct (date, name, amount) key among the
transactions whose normalized merchant name equals the normalized bill
merchant name, each row carrying the count of raw transactions in its
group; zero matches (in particular an empty transaction table) yield an
empty table; and in the concrete three-transaction scenario the result is
exactly the two expected grouped rows with count 1, with no row from the
"Other" transaction. -/
theorem analyze_bill_activity_groups_matches (self : Account_Analyzer) (bill : Bill) :
    ((self.analyze_bill_activity bill).map (fun r => (r.date, r.name, r.amount))).Nodup
  ∧ (∀ k : String × String × Int,
      (k ∈ (self.analyze_bill_activity bill).map (fun r => (r.date, r.name, r.amount)) ↔
        k ∈ (self.account_history.filter (fun t => billMatches bill t)).map txnKey))
  ∧ (∀ r ∈ self.analyze_bill_activity bill,
      r.category_id =
        ((self.account_history.filter (fun t => billMatches bill t)).filter
          (fun t => txnKey t = (r.date, r.name, r.amount))).length)
  ∧ (self.account_history.filter (fun t => billMatches bill t) = [] →
      self.analyze_bill_activity bill = [])
  ∧ (Account_Analyzer.init []).analyze_bill_activity bill = []
  ∧ (Account_Analyzer.init
      [⟨"2024-01-05", "Acme Gym", "Acme Gym", 40, "c1"⟩,
       ⟨"2024-02-05", "acme gym", "acme gym", 40, "c1"⟩,
       ⟨"2024-03-05", "Other", "Other", 10, "c2"⟩]).analyze_bill_activity
        (Bill.mkDefault "Gym" "" "1" "Acme Gym") =
      [⟨"2024-01-05", "Acme Gym", 40, 1⟩, ⟨"2024-02-05", "acme gym", 40, 1⟩] := by
  have hmapkey :
      (self.analyze_bill_activity bill).map (fun r => (r.date, r.name, r.amount)) =
        ((self.account_history.filter (fun t => billMatches bill t)).map txnKey).dedup := by
    simp only [Account_Analyzer.analyze_bill_activity, List.map_map]
    have hid : ((fun r : GroupedRow => (r.date, r.name, r.amount)) ∘
        (fun k : String × String × Int =>
          ({date := k.1, name := k.2.1, amount := k.2.2,
            category_id := ((self.account_history.filter (fun t => billMatches bill t)).filter
              (fun t => txnKey t = k)).length} : GroupedRow))) = id := by
      funext k
      rfl
    rw [hid, List.map_id]
  refine ⟨?_, ?_, ?_, ?_, rfl, by decide⟩
  · rw [hmapkey]
    exact List.nodup_dedup _
  · intro k
    rw [hmapkey]
    exact List.mem_dedup
  · intro r hr
    simp only [Account_Analyzer.analyze_bill_activity] at hr
    obtain ⟨k, hk, rfl⟩ := List.mem_map.mp hr
    rfl
  · intro hempty
    simp only [Account_Analyzer.analyze_bill_activity, hempty]
    rfl

/-- Witness for C1 at the concrete scenario inputs. -/
theorem analyze_bill_activity_groups_matches_witness :
    (Account_Analyzer.init
      [⟨"2024-01-05", "Acme Gym", "Acme Gym", 40, "c1"⟩,
       ⟨"2024-02-05", "acme gym", "acme gym", 40, "c1"⟩,
       ⟨"2024-03-05", "Other", "Other", 10, "c2"⟩]).analyze_bill_activity
        (Bill.mkDefault "Gym" "" "1" "Acme Gym") =
      [⟨"2024-01-05", "Acme Gym", 40, 1⟩, ⟨"2024-02-05", "acme gym", 40, 1⟩] :=
  (analyze_bill_activity_groups_matches
    (Account_Analyzer.init
      [⟨"2024-01-05", "Acme Gym", "Acme Gym", 40, "c1"⟩,
       ⟨"2024-02-05", "acme gym", "acme gym", 40, "c1"⟩,
       ⟨"2024-03-05", "Other", "Other", 10, "c2"⟩])
    (Bill.mkDefault "Gym" "" "1" "Acme Gym")).2.2.2.2.2

/-- C2: the merchant-name selection of `analyze_bill_activity` is invariant
under surrounding whitespace and case changes on either side of the
comparison, and the transaction with merchant name " Acme  " matches the
bill declared with merchant name "acme". -/
theorem billMatches_whitespace_case_invariant
    (bill : Bill) (t : Transaction) (w₁ w₂ v₁ v₂ tm bm : String)
    (hw₁ : ∀ c ∈ w₁.data, isPySpace c = true) (hw₂ : ∀ c ∈ w₂.data, isPySpace c = true)
    (hv₁ : ∀ c ∈ v₁.data, isPySpace c = true) (hv₂ : ∀ c ∈ v₂.data, isPySpace c = true)
    (htm : pyLower tm.data = pyLower t.merchant_name.data)
    (hbm : pyLower bm.data = pyLower bill.merchant_name.data) :
    billMatches bill { t with merchant_name := w₁ ++ t.merchant_name ++ w₂ } = billMatches bill t
  ∧ billMatches { bill with merchant_name := v₁ ++ bill.merchant_name ++ v₂ } t =
      billMatches bill t
  ∧ billMatches bill { t with merchant_name := tm } = billMatches bill t
  ∧ billMatches { bill with merchant_name := bm } t = billMatches bill t
  ∧ billMatches (Bill.mkDefault "Gym" "" "1" "acme")
      ⟨"2024-01-05", "n", " Acme  ", 40, "c"⟩ = true := by
  refine ⟨?_, ?_, ?_, ?_, by decide⟩
  · simp only [billMatches]
    rw [normalizeMerchant_pad _ _ _ hw₁ hw₂]
  · simp only [billMatches]
    rw [normalizeMerchant_pad _ _ _ hv₁ hv₂]
  · simp only [billMatches]
    rw [normalizeMerchant_case _ _ htm]
  · simp only [billMatches]
    rw [normalizeMerchant_case _ _ hbm]

/-- Witness for C2: concrete whitespace padding on the transaction side,
and the concrete " Acme  " vs "acme" match. -/
theorem billMatches_whitespace_case_invariant_witness :
    billMatches (Bill.mkDefault "Gym" "" "1" "acme")
      { (⟨"2024-01-05", "n", " Acme  ", 40, "c"⟩ : Transaction) with
        merchant_name := " " ++ " Acme  " ++ "\t" } =
      billMatches (Bill.mkDefault "Gym" "" "1" "acme")
        (⟨"2024-01-05", "n", " Acme  ", 40, "c"⟩ : Transaction)
  ∧ billMatches (Bill.mkDefault "Gym" "" "1" "acme")
      (⟨"2024-01-05", "n", " Acme  ", 40, "c"⟩ : Transaction) = true :=
  ⟨(billMatches_whitespace_case_invariant
      (Bill.mkDefault "Gym" "" "1" "acme") ⟨"2024-01-05", "n", " Acme  ", 40, "c"⟩
      " " "\t" "" " " " Acme  " "acme"
      (by decide) (by decide) (by decide) (by decide) (by decide) (by decide)).1,
   (billMatches_whitespace_case_invariant
      (Bill.mkDefault "Gym" "" "1" "acme") ⟨"2024-01-05", "n", " Acme  ", 40, "c"⟩
      " " "\t" "" " " " Acme  " "acme"
      (by decide) (by decide) (by decide) (by decide) (by decide) (by decide)).2.2.2.2⟩

/-- C3: when the external call raises a declared API error,
`get_account_details` returns (does not raise) the mapping whose single
top-level key is "error", carrying exactly the four fields status_code,
display_message, error_code and error_type taken from the error. -/
theorem get_account_details_error_mapping (e : ApiException) :
    Plaid_Interface.get_account_details (Except.error e) =
      AccountDetailsResult.error_dict (Plaid_Interface.format_error e)
  ∧ (Plaid_Interface.format_error e).map Prod.fst = ["error"]
  ∧ (Plaid_Interface.format_error e).lookup "error" =
      some [("status_code", PValue.int e.status),
            ("display_message", PValue.str e.error_message),
            ("error_code", PValue.str e.error_code),
            ("error_type", PValue.str e.error_type)]
  ∧ ((Plaid_Interface.format_error e).lookup "error").map (fun body => body.map Prod.fst) =
      some ["status_code", "display_message", "error_code", "error_type"] :=
  ⟨rfl, rfl, rfl, rfl⟩

/-- C4: `get_account_history` issues exactly one transaction query per
retained boundary date `d`, over the window from `d` to `d + 1 month`
(independently of the stepping unit), with a 500-transaction cap and no
further request per window, and returns the concatenation of the returned
transaction batches. -/
theorem get_account_history_one_query_per_window
    (client : TransactionsRequest → TransactionsResponse)
    (today : PyDate) (option : String) (periods : Nat) :
    (Plaid_Interface.get_account_history client today option periods).2 =
      (retained_dates today option periods).map
        (fun d => (⟨d, some (addMonths1 d), 500⟩ : TransactionsRequest))
  ∧ (Plaid_Interface.get_account_history client today option periods).1 =
      ((retained_dates today option periods).map
        (fun d => (client ⟨d, some (addMonths1 d), 500⟩).transactions)).flatten := by
  simp only [Plaid_Interface.get_account_history, Plaid_Interface.get_transactions_from_plaid]
  rw [history_fold]
  constructor
  · simp
  · simp [json_normalize_transactions, List.map_map]
    rfl

/-- C5: for a valid `today` and unit in {day, month}, `get_date_range`
returns exactly `periods` dates, the i-th being the (i+1)-st backward step
from today (newest to oldest, first date one step before today), every
returned date is strictly before today, and the strictly-before-now filter
of `get_account_history` retains all of them. -/
theorem get_date_range_count_and_order (today : PyDate) (option : String) (periods : Nat)
    (hv : ValidDate today) (_hopt : option = "d" ∨ option = "m") :
    (Plaid_Interface.get_date_range today option periods).length = periods
  ∧ (∀ i, i < periods → (Plaid_Interface.get_date_range today option periods)[i]? =
      some ((stepBack option)^[i + 1] today))
  ∧ (∀ e ∈ Plaid_Interface.get_date_range today option periods, dateLt e today)
  ∧ retained_dates today option periods = Plaid_Interface.get_date_range today option periods := by
  refine ⟨get_date_range_loop_length option today periods, ?_, ?_, ?_⟩
  · intro i hi
    rw [Plaid_Interface.get_date_range, get_date_range_loop_iterate]
    rw [List.getElem?_map, List.getElem?_range hi]
    rfl
  · intro e he
    exact (get_date_range_loop_mem hv he).2
  · rw [retained_dates]
    apply List.filter_eq_self.mpr
    intro e he
    exact decide_eq_true (get_date_range_loop_mem hv he).2

/-- Witness for C5 at today = 2024-03-31, unit month, two periods. -/
theorem get_date_range_count_and_order_witness :
    ValidDate ⟨2024, 3, 31⟩
  ∧ (Plaid_Interface.get_date_range ⟨2024, 3, 31⟩ "m" 2).length = 2
  ∧ retained_dates ⟨2024, 3, 31⟩ "m" 2 = Plaid_Interface.get_date_range ⟨2024, 3, 31⟩ "m" 2 :=
  ⟨by decide,
   (get_date_range_count_and_order ⟨2024, 3, 31⟩ "m" 2 (by decide) (Or.inr rfl)).1,
   (get_date_range_count_and_order ⟨2024, 3, 31⟩ "m" 2 (by decide) (Or.inr rfl)).2.2.2⟩

/-- C6 counterexample: the grouped table returned by
`analyze_bill_activity` does not carry a column named "count". -/
theorem analyze_bill_activity_columns_no_count :
    analyze_bill_activity_columns ≠ ["date", "name", "amount", "count"] := by
  decide

/-- C6 amended: the per-bill occurrence table has exactly the columns
(date, name, amount, category_id) — the per-group count column keeps the
name of the counted source column, `category_id`, because the
`rename({'count': 'category_id'})` call targets the row-index axis and is a
no-op on columns. -/
theorem analyze_bill_activity_columns_category_id :
    analyze_bill_activity_columns = ["date", "name", "amount", "category_id"] := rfl

/-- C7: after any sequence of `add_recurring_bill` calls,
`find_bills_in_period` returns exactly one result table per registered
bill, in registration order, the i-th table being `analyze_bill_activity`
of the i-th registered bill against the shared transaction table; duplicate
registrations are kept, so registering the same bill twice yields its table
twice. -/
theorem find_bills_in_period_one_table_per_bill
    (history : List Transaction) (bs : List Bill) (b : Bill) :
    (register_bills history bs).bill_list = bs
  ∧ (register_bills history bs).account_history = history
  ∧ (register_bills history bs).find_bills_in_period =
      bs.map (fun bill => (register_bills history bs).analyze_bill_activity bill)
  ∧ (((Account_Analyzer.init history).add_recurring_bill b).add_recurring_bill
        b).find_bills_in_period =
      [(((Account_Analyzer.init history).add_recurring_bill b).add_recurring_bill
          b).analyze_bill_activity b,
       (((Account_Analyzer.init history).add_recurring_bill b).add_recurring_bill
          b).analyze_bill_activity b] := by
  refine ⟨?_, ?_, ?_, ?_⟩
  · rw [register_bills_eq]
  · rw [register_bills_eq]
  · rw [find_bills_in_period_eq_map, register_bills_eq]
  · rw [find_bills_in_period_eq_map]
    rfl

/-- C8: `report_bills` returns one field mapping per registered bill, in
registration order, each mapping carrying exactly the fixed key set NAME,
REGEX, FREQUENCY, MERCHANT_NAME, PERIOD, AMOUNT, DUE_DATE; the fields with
dataclass defaults that a caller left unsupplied serialize to their
defaults (frequency 1, period "monthly", amount 0) and are never omitted
from the mapping. -/
theorem report_bills_fixed_key_contract (history : List Transaction) (bs : List Bill) :
    (register_bills history bs).report_bills = bs.map Bill.to_dict
  ∧ (∀ b : Bill, (Bill.to_dict b).map Prod.fst =
      ["NAME", "REGEX", "FREQUENCY", "MERCHANT_NAME", "PERIOD", "AMOUNT", "DUE_DATE"])
  ∧ (∀ n r dd m : String,
      ((Bill.mkDefault n r dd m).to_dict).lookup "FREQUENCY" = some (PValue.int 1) ∧
      ((Bill.mkDefault n r dd m).to_dict).lookup "PERIOD" = some (PValue.str "monthly") ∧
      ((Bill.mkDefault n r dd m).to_dict).lookup "AMOUNT" = some (PValue.int 0) ∧
      ((Bill.mkDefault n r dd m).to_dict).lookup "REGEX" = some (PValue.str r)) := by
  refine ⟨?_, fun b => rfl, fun n r dd m => ⟨rfl, rfl, rfl, rfl⟩⟩
  rw [register_bills_eq]
  rfl

/-- C9: calling `get_transactions_from_plaid` with `start = None` issues no
API request and returns `None` instead of raising. -/
theorem get_transactions_from_plaid_none
    (client : TransactionsRequest → TransactionsResponse) (end_date : Option PyDate) :
    Plaid_Interface.get_transactions_from_plaid client none end_date = (none, []) := rfl

/-- C10: every option value other than "d" steps by months: the returned
dates are exactly the backward month iterates of today, with no error or
rejection for unrecognized unit strings. -/
theorem get_date_range_non_d_steps_months (today : PyDate) (option : String) (periods : Nat)
    (h : option ≠ "d") :
    Plaid_Interface.get_date_range today option periods =
      (List.range periods).map (fun k => subMonths1^[k + 1] today) := by
  have hstep : stepBack option = subMonths1 := by
    funext d
    unfold stepBack
    rw [if_neg h]
  rw [Plaid_Interface.get_date_range, get_date_range_loop_iterate, hstep]

/-- Witness for C10 at the unrecognized unit "w". -/
theorem get_date_range_non_d_steps_months_witness :
    ("w" : String) ≠ "d"
  ∧ Plaid_Interface.get_date_range ⟨2024, 1, 31⟩ "w" 2 = [⟨2023, 12, 31⟩, ⟨2023, 11, 30⟩] := by
  refine ⟨by decide, ?_⟩
  rw [get_date_range_non_d_steps_months ⟨2024, 1, 31⟩ "w" 2 (by decide)]
  decide
